import Mathlib

/-!
Shallow embedding of the RainViewer desktop GUI (`map.py`): the map-URL
builder `build_src`, the alert fetch pipeline `fetch_alerts`, and the
response normalization `populate_alerts` / `fmt_time`.

Modelling conventions:
* Latitude/longitude live in 4-decimal spin boxes (`setDecimals(4)`), so they
  are modelled as integers counting 1e-4 degree units; `fmt4` models the
  Python format `f"{v:.4f}"` on such a value.
* JSON values are the inductive `Json`; Python truthiness, `dict.get`,
  `len`, `str()` and the attribute/type errors raised on wrong shapes are
  modelled explicitly.
* HTTP traffic is an oracle `net : String → HttpResult` mapping a URL to
  either a raised request exception or a response (status, reason, body,
  where the body is the outcome of `.json()`).
* The external `datetime.fromisoformat …  strftime` pipeline inside
  `fmt_time`'s `try` block is a parameter `iso : String → Option String`
  (`none` models a raised exception).
* `fetch_alerts` returns the updated widget state together with the list of
  request URLs issued, in order.
-/

/-- JSON values as produced by `response.json()`. Object fields are listed
with distinct keys. -/
inductive Json where
  | null : Json
  | bool (b : Bool) : Json
  | num (n : Int) : Json
  | str (s : String) : Json
  | arr (xs : List Json) : Json
  | obj (fs : List (String × Json)) : Json

/-- Python truthiness of a JSON-derived value. -/
def Json.truthy : Json → Bool
  | .null => false
  | .bool b => b
  | .num n => n != 0
  | .str s => s != ""
  | .arr xs => !xs.isEmpty
  | .obj fs => !fs.isEmpty

/-- Python type name of a JSON-derived value, as used in error messages. -/
def Json.pyType : Json → String
  | .null => "NoneType"
  | .bool _ => "bool"
  | .num _ => "int"
  | .str _ => "str"
  | .arr _ => "list"
  | .obj _ => "dict"

/-- Association-list lookup inside an object. -/
def Json.find : List (String × Json) → String → Option Json
  | [], _ => none
  | (k, v) :: rest, key => if k = key then some v else Json.find rest key

/-- Python `d.get(k)`: `some` value on a dict hit, `none` otherwise (use
sites guard the non-dict case, where Python raises, separately). -/
def Json.get? : Json → String → Option Json
  | .obj fs, k => Json.find fs k
  | _, _ => none

/-- Python `d.get(k, default)` on a dict. -/
def Json.getD (j : Json) (k : String) (d : Json) : Json :=
  (j.get? k).getD d

/-- Python `len(x)`: `none` models the `TypeError` raised by sized-less values. -/
def pyLen : Json → Option Nat
  | .str s => some s.length
  | .arr xs => some xs.length
  | .obj fs => some fs.length
  | _ => none

mutual

/-- Python `repr` of a JSON-derived value (strings rendered with single
quotes, no escaping, which is exact for quote-free text). -/
def Json.pyRepr : Json → String
  | .null => "None"
  | .bool b => cond b "True" "False"
  | .num n => toString n
  | .str s => "\x27" ++ s ++ "\x27"
  | .arr xs => "[" ++ String.intercalate ", " (pyReprList xs) ++ "]"
  | .obj fs => "\x7b" ++ String.intercalate ", " (pyReprFields fs) ++ "\x7d"

/-- Renders each element of a JSON array for `Json.pyRepr`. -/
def pyReprList : List Json → List String
  | [] => []
  | x :: xs => Json.pyRepr x :: pyReprList xs

/-- Renders each key/value pair of a JSON object for `Json.pyRepr`. -/
def pyReprFields : List (String × Json) → List String
  | [] => []
  | (k, v) :: fs => ("\x27" ++ k ++ "\x27: " ++ Json.pyRepr v) :: pyReprFields fs

end

/-- Python `str(x)` (equals `repr` except on strings). -/
def Json.pyStr : Json → String
  | .str s => s
  | j => j.pyRepr

/-- Message of the `AttributeError` raised by `x.attr` on the wrong type. -/
def attrErrMsg (ty attr : String) : String :=
  "\x27" ++ ty ++ "\x27 object has no attribute \x27" ++ attr ++ "\x27"

/-- Message of the `TypeError` raised by iterating a non-iterable. -/
def notIterMsg (ty : String) : String :=
  "\x27" ++ ty ++ "\x27 object is not iterable"

/-- Message of the `TypeError` raised by `len` on a sized-less value. -/
def noLenMsg (ty : String) : String :=
  "object of type \x27" ++ ty ++ "\x27 has no len()"

/-- Message of the `TypeError` raised by `QTreeWidgetItem` on non-string
column values (modelled constant). -/
def widgetTypeErrMsg : String :=
  "QTreeWidgetItem(): unsupported argument types"

/-- One displayed alert row: the six `QTreeWidgetItem` columns plus the
detail URL stored via `setData` (line 350–354 of `map.py`). -/
structure AlertRecord where
  event : String
  severity : String
  urgency : String
  certainty : String
  col5 : String
  col6 : String
  url : Option Json

/-- Widget state of `RainViewerGUI` that the modelled methods read or
write. `lat4`/`lon4` count 1e-4 degree units of the 4-decimal spin boxes;
`c`, `ts`, `layer`, `alerts_mode`, `alerts_area` are combo-box texts. -/
structure GuiState where
  lat4 : Int
  lon4 : Int
  zoom : Int
  layer : String
  c : String
  o : Int
  lm : Bool
  sm : Bool
  sn : Bool
  ts : String
  alerts_mode : String
  alerts_area : String
  alerts_auto : Bool
  alerts_interval : Int
  ua : String
  alerts_rows : List AlertRecord
  alerts_status : String

/-- Zero-padded 4-digit decimal rendering of `k < 10000`: the fractional
part of `f"{v:.4f}"`. -/
def pad4 (k : Nat) : String :=
  String.mk [Nat.digitChar (k / 1000 % 10), Nat.digitChar (k / 100 % 10),
    Nat.digitChar (k / 10 % 10), Nat.digitChar (k % 10)]

/-- Python `f"{v:.4f}"` on a value held in 1e-4 units. -/
def fmt4 (n : Int) : String :=
  (if n < 0 then "-" else "") ++ toString (n.natAbs / 10000) ++ "." ++ pad4 (n.natAbs % 10000)

/-- Zoom clamp `max(1, min(12, int(zoom)))` from `build_src`. -/
def clampZoom (z : Int) : Int :=
  max 1 (min 12 z)

/-- The nine query parameters of `build_src` (line 250–260), in the
insertion order of the Python dict. -/
def buildParams (st : GuiState) : List (String × String) :=
  [("loc", fmt4 st.lat4 ++ "," ++ fmt4 st.lon4 ++ "," ++ toString (clampZoom st.zoom)),
   ("oCS", "1"),
   ("c", st.c),
   ("o", toString st.o),
   ("lm", if st.lm then "1" else "0"),
   ("layer", st.layer),
   ("sm", if st.sm then "1" else "0"),
   ("sn", if st.sn then "1" else "0"),
   ("ts", st.ts)]

/-- `RainViewerGUI.build_src` (line 246–262). -/
def build_src (st : GuiState) : String :=
  "https://www.rainviewer.com/map.html?" ++
    String.intercalate "&" ((buildParams st).map fun kv => kv.1 ++ "=" ++ kv.2)

/-- `NWS_API` constant of `map.py`. -/
def NWS_API : String := "https://api.weather.gov"

/-- Point-mode alerts URL (line 307). -/
def pointURL (st : GuiState) : String :=
  NWS_API ++ "/alerts/active?point=" ++ fmt4 st.lat4 ++ "," ++ fmt4 st.lon4

/-- Auxiliary point-metadata lookup URL of zone mode (line 315). -/
def pointsURL (st : GuiState) : String :=
  NWS_API ++ "/points/" ++ fmt4 st.lat4 ++ "," ++ fmt4 st.lon4

/-- State-mode alerts URL (line 310). -/
def areaURL (st : GuiState) : String :=
  NWS_API ++ "/alerts/active?area=" ++ st.alerts_area

/-- Result of one `requests.get`: a raised request exception, or a response
carrying HTTP status, reason phrase, and the outcome of `.json()`
(`Except.error` models a JSON decode exception with its message). -/
inductive HttpResult where
  | exn (msg : String) : HttpResult
  | resp (status : Nat) (reason : String) (body : Except String Json) : HttpResult

/-- Message of the `requests.HTTPError` raised by `raise_for_status`. -/
def httpErrMsg (status : Nat) (reason url : String) : String :=
  if status < 500 then
    toString status ++ " Client Error: " ++ reason ++ " for url: " ++ url
  else
    toString status ++ " Server Error: " ++ reason ++ " for url: " ++ url

/-- `response.raise_for_status()`: raises exactly for 4xx/5xx statuses. -/
def raiseForStatus (status : Nat) (reason url : String) : Option String :=
  if 400 ≤ status ∧ status < 600 then some (httpErrMsg status reason url) else none

/-- `RainViewerGUI.fmt_time` (line 360–368), over the raw JSON value
handed in by `populate_alerts`. The external pipeline
`datetime.fromisoformat(...).astimezone().strftime(...)` is the parameter
`iso` (`none` models a raised exception, caught by the `except`; a truthy
non-string raises at `t.replace` and is likewise returned unchanged). -/
def fmt_time (iso : String → Option String) (t : Json) : Json :=
  if t.truthy then
    match t with
    | .str s =>
      match iso (s.replace "Z" "+00:00") with
      | some out => .str out
      | none => .str s
    | v => v
  else .str ""

/-- The `ends or expires or effective` chain (line 344): Python `or`
returns the first truthy operand, else the last operand. -/
def endsChain (props : Json) : Json :=
  let e1 := props.getD "ends" .null
  if e1.truthy then e1
  else
    let e2 := props.getD "expires" .null
    if e2.truthy then e2 else props.getD "effective" .null

/-- Column-5 text produced from one raw timestamp value:
`f"{ends_text}" if ends_text else "—"` (line 345, 348). -/
def dispOf (iso : String → Option String) (v : Json) : String :=
  let et := fmt_time iso v
  if et.truthy then et.pyStr else "—"

/-- Column-5 text of a feature's properties dict. -/
def tsDisplay (iso : String → Option String) (props : Json) : String :=
  dispOf iso (endsChain props)

/-- `col6 = office if office else area` (line 346–349). -/
def col6val (props : Json) : Json :=
  let office := props.getD "senderName" (.str "")
  if office.truthy then office else props.getD "areaDesc" (.str "")

/-- Detail URL chain `props.get("id") or f.get("id") or props.get("@id")`
(line 352). -/
def detailURL (f props : Json) : Json :=
  let u1 := props.getD "id" .null
  if u1.truthy then u1
  else
    let u2 := f.getD "id" .null
    if u2.truthy then u2 else props.getD "@id" .null

/-- Row construction from a feature whose `properties` value is the dict
`props` (line 339–354). `QTreeWidgetItem` requires every column to be a
string; a non-string column value raises a `TypeError`. -/
def normFromProps (iso : String → Option String) (f props : Json) : Except String AlertRecord :=
  match props.getD "event" (.str "—"), props.getD "severity" (.str "—"),
      props.getD "urgency" (.str "—"), props.getD "certainty" (.str "—"),
      col6val props with
  | .str ev, .str sv, .str ur, .str ce, .str c6 =>
    .ok { event := ev, severity := sv, urgency := ur, certainty := ce,
          col5 := tsDisplay iso props, col6 := c6,
          url := if (detailURL f props).truthy then some (detailURL f props) else none }
  | _, _, _, _, _ => .error widgetTypeErrMsg

/-- Processing of one feature of the `features` list: `f.get` and
`props.get` raise `AttributeError` on non-dicts. -/
def normFeature (iso : String → Option String) (f : Json) : Except String AlertRecord :=
  match f with
  | .obj _ =>
    match f.getD "properties" (.obj []) with
    | .obj pf => normFromProps iso f (Json.obj pf)
    | p => .error (attrErrMsg p.pyType "get")
  | _ => .error (attrErrMsg f.pyType "get")

/-- The `for f in feats` loop body of `populate_alerts`: rows added before
the first raising feature, plus the raised message if any. -/
def addRows (iso : String → Option String) : List Json → List AlertRecord × Option String
  | [] => ([], none)
  | f :: fs =>
    match normFeature iso f with
    | .error m => ([], some m)
    | .ok r =>
      match addRows iso fs with
      | (rs, e) => (r :: rs, e)

/-- `RainViewerGUI.populate_alerts` (line 335–358). The view is cleared
first, so the returned rows replace the previous ones even when a message
is raised (`some`). `feats = data.get("features", []) or []` keeps a truthy
value as is; iterating a truthy non-list raises (`str`/`dict` elements lack
`.get`; `int`/`bool` are not iterable). -/
def populate_alerts (iso : String → Option String) (data : Json) : List AlertRecord × Option String :=
  match data with
  | .obj _ =>
    let feats0 := data.getD "features" (.arr [])
    let feats := if feats0.truthy then feats0 else .arr []
    match feats with
    | .arr xs => addRows iso xs
    | .str _ => ([], some (attrErrMsg "str" "get"))
    | .obj _ => ([], some (attrErrMsg "str" "get"))
    | .num _ => ([], some (notIterMsg "int"))
    | .bool _ => ([], some (notIterMsg "bool"))
    | .null => ([], some (notIterMsg "NoneType"))
  | j => ([], some (attrErrMsg j.pyType "get"))

/-- URL-resolution stage of `fetch_alerts` (line 303–324): the primary URL,
or the message of an exception raised during the zone-mode auxiliary
lookup, together with the auxiliary requests issued. -/
def resolve_url (net : String → HttpResult) (st : GuiState) : Except String String × List String :=
  if st.alerts_mode = "point" then (.ok (pointURL st), [])
  else if st.alerts_mode = "state" then (.ok (areaURL st), [])
  else if st.alerts_mode = "zone" then
    let aux := pointsURL st
    match net aux with
    | .exn m => (.error m, [aux])
    | .resp status reason body =>
      match raiseForStatus status reason aux with
      | some m => (.error m, [aux])
      | none =>
        match body with
        | .error m => (.error m, [aux])
        | .ok j =>
          match j with
          | .obj _ =>
            match j.getD "properties" (.obj []) with
            | .obj pf =>
              match (Json.obj pf).get? "county" with
              | some county =>
                if county.truthy then
                  match county with
                  | .str s =>
                    (.ok (NWS_API ++ "/alerts/active?zone=" ++ (s.splitOn "/").getLastD ""), [aux])
                  | v => (.error (attrErrMsg v.pyType "split"), [aux])
                else (.ok (pointURL st), [aux])
              | none => (.ok (pointURL st), [aux])
            | p => (.error (attrErrMsg p.pyType "get"), [aux])
          | _ => (.error (attrErrMsg j.pyType "get"), [aux])
  else (.ok (NWS_API ++ "/alerts/active"), [])

/-- Primary request of `fetch_alerts` (line 326–331) followed by
`populate_alerts` and the status-line update; any raised exception lands in
the `except` clause (line 332–333), which only rewrites the status line. -/
def primaryFetch (iso : String → Option String) (net : String → HttpResult)
    (st : GuiState) (url : String) (reqs : List String) : GuiState × List String :=
  match net url with
  | .exn m => ({st with alerts_status := "Alerts error: " ++ m}, reqs ++ [url])
  | .resp status reason body =>
    match raiseForStatus status reason url with
    | some m => ({st with alerts_status := "Alerts error: " ++ m}, reqs ++ [url])
    | none =>
      match body with
      | .error m => ({st with alerts_status := "Alerts error: " ++ m}, reqs ++ [url])
      | .ok data =>
        match populate_alerts iso data with
        | (rows, some m) =>
          ({st with alerts_rows := rows, alerts_status := "Alerts error: " ++ m}, reqs ++ [url])
        | (rows, none) =>
          match data with
          | .obj _ =>
            match pyLen (data.getD "features" (.arr [])) with
            | some count =>
              ({st with
                  alerts_rows := rows
                  alerts_status := "NWS alerts: " ++ toString count ++ " (source: " ++ url ++ ")"},
               reqs ++ [url])
            | none =>
              ({st with
                  alerts_rows := rows
                  alerts_status := "Alerts error: " ++ noLenMsg (data.getD "features" (.arr [])).pyType},
               reqs ++ [url])
          | j =>
            ({st with alerts_rows := rows, alerts_status := "Alerts error: " ++ attrErrMsg j.pyType "get"},
             reqs ++ [url])

/-- `RainViewerGUI.fetch_alerts` (line 302–333): resolves the URL (with the
zone-mode auxiliary lookup), issues the primary request, populates the
rows, and sets the status line; every raised exception only rewrites the
status line. Returns the new state and the URLs requested, in order. -/
def fetch_alerts (iso : String → Option String) (net : String → HttpResult)
    (st : GuiState) : GuiState × List String :=
  match resolve_url net st with
  | (.error m, reqs) => ({st with alerts_status := "Alerts error: " ++ m}, reqs)
  | (.ok url, reqs) => primaryFetch iso net st url reqs

/-- A string of the shape `intpart.dddd`: exactly four decimal digits after
the final dot. -/
def fourDecimalStr (s : String) : Prop :=
  ∃ a b, s = a ++ "." ++ b ∧ b.length = 4 ∧ b.data.all Char.isDigit = true

/-- Digit characters of values below ten are decimal digits. -/
theorem digitChar_isDigit : ∀ d : Nat, d < 10 → (Nat.digitChar d).isDigit = true := by decide

/-- The fractional block produced by `pad4` is four decimal digits. -/
theorem pad4_digits (k : Nat) : (pad4 k).data.all Char.isDigit = true := by
  show List.all [Nat.digitChar (k / 1000 % 10), Nat.digitChar (k / 100 % 10),
    Nat.digitChar (k / 10 % 10), Nat.digitChar (k % 10)] Char.isDigit = true
  refine List.all_eq_true.mpr ?_
  intro c hc
  simp only [List.mem_cons, List.not_mem_nil, or_false] at hc
  rcases hc with rfl | rfl | rfl | rfl <;>
    exact digitChar_isDigit _ (Nat.mod_lt _ (by norm_num))

/-- Every `fmt4` rendering carries exactly four decimal places. -/
theorem fmt4_fourDecimal (n : Int) : fourDecimalStr (fmt4 n) :=
  ⟨(if n < 0 then "-" else "") ++ toString (n.natAbs / 10000), pad4 (n.natAbs % 10000),
    rfl, rfl, pad4_digits _⟩

/-- The snapshot of the C1 scenario: the application defaults. -/
def exampleState : GuiState :=
  { lat4 := 497847, lon4 := -949921, zoom := 5, layer := "radar", c := "3", o := 83,
    lm := true, sm := true, sn := true, ts := "2", alerts_mode := "point",
    alerts_area := "FL", alerts_auto := true, alerts_interval := 120,
    ua := "dc404-weathermap (contact: you@example.com)",
    alerts_rows := [], alerts_status := "—" }

/-- C1: for every snapshot the map URL is the fixed prefix followed by the
nine documented query parameters joined in the fixed order loc, oCS, c, o,
lm, layer, sm, sn, ts, with latitude and longitude formatted to exactly
four decimal places and the zoom packed into `loc` clamped to [1, 12]; and
the default snapshot yields exactly the documented query string. -/
theorem build_src_nine_params :
    (∀ st : GuiState,
        build_src st =
          "https://www.rainviewer.com/map.html?" ++
            String.intercalate "&" ((buildParams st).map fun kv => kv.1 ++ "=" ++ kv.2))
    ∧ (∀ st : GuiState,
        (buildParams st).map Prod.fst = ["loc", "oCS", "c", "o", "lm", "layer", "sm", "sn", "ts"])
    ∧ (∀ st : GuiState,
        (buildParams st).head? =
          some ("loc", fmt4 st.lat4 ++ "," ++ fmt4 st.lon4 ++ "," ++ toString (clampZoom st.zoom)))
    ∧ (∀ n : Int, fourDecimalStr (fmt4 n))
    ∧ (∀ z : Int, 1 ≤ clampZoom z ∧ clampZoom z ≤ 12)
    ∧ build_src exampleState =
        "https://www.rainviewer.com/map.html?loc=49.7847,-94.9921,5&oCS=1&c=3&o=83&lm=1&layer=radar&sm=1&sn=1&ts=2" := by
  refine ⟨fun st => rfl, fun st => rfl, fun st => rfl, fmt4_fourDecimal, fun z => ?_, by decide⟩
  exact ⟨le_max_left 1 _, max_le (by norm_num) (min_le_left 12 z)⟩

/-- A state agreeing with `exampleState` on the ten map-display parameters
but with different alert settings, feed rows, and status line. -/
def exampleAltState : GuiState :=
  { exampleState with
      alerts_mode := "zone"
      alerts_area := "TX"
      alerts_auto := false
      alerts_interval := 300
      ua := "someone-else"
      alerts_rows := [{ event := "Flood Watch", severity := "Moderate", urgency := "Expected",
                        certainty := "Likely", col5 := "—", col6 := "NWS", url := none }]
      alerts_status := "NWS alerts: 1 (source: x)" }

/-- C6: the map URL is a pure function of the ten map-display parameters;
two states that agree on them produce the identical URL regardless of alert
settings or the currently displayed feed. -/
theorem mapurl_depends_only_on_snapshot :
    ∀ s₁ s₂ : GuiState, s₁.lat4 = s₂.lat4 → s₁.lon4 = s₂.lon4 → s₁.zoom = s₂.zoom →
      s₁.layer = s₂.layer → s₁.c = s₂.c → s₁.o = s₂.o → s₁.lm = s₂.lm → s₁.sm = s₂.sm →
      s₁.sn = s₂.sn → s₁.ts = s₂.ts → build_src s₁ = build_src s₂ := by
  intro s₁ s₂ h1 h2 h3 h4 h5 h6 h7 h8 h9 h10
  simp [build_src, buildParams, h1, h2, h3, h4, h5, h6, h7, h8, h9, h10]

/-- C6 witness: the default state and a state with different alert
settings and feed give the same URL. -/
theorem mapurl_depends_only_on_snapshot_w :
    build_src exampleState = build_src exampleAltState :=
  mapurl_depends_only_on_snapshot exampleState exampleAltState
    rfl rfl rfl rfl rfl rfl rfl rfl rfl rfl

/-- A modelled datetime pipeline that always raises (parse failure). -/
def isoNone : String → Option String := fun _ => none

/-- Whether a feature was turned into a row rather than raising. -/
def isOkE : Except String AlertRecord → Bool
  | .ok _ => true
  | .error _ => false

/-- The column-5 text of a produced row is the display of the
`ends or expires or effective` chain over the feature's properties. -/
theorem normFeature_col5 (iso : String → Option String) (f : Json) (r : AlertRecord)
    (h : normFeature iso f = .ok r) :
    r.col5 = tsDisplay iso (f.getD "properties" (.obj [])) := by
  unfold normFeature at h
  cases f with
  | obj fs =>
    cases hp : (Json.obj fs).getD "properties" (.obj []) with
    | obj pf =>
      rw [hp] at h
      have h2 : normFromProps iso (Json.obj fs) (Json.obj pf) = .ok r := h
      unfold normFromProps at h2
      split at h2
      · injection h2 with h3
        subst h3
        rfl
      · cases h2
    | null => rw [hp] at h; exact Except.noConfusion h
    | bool b => rw [hp] at h; exact Except.noConfusion h
    | num n => rw [hp] at h; exact Except.noConfusion h
    | str s => rw [hp] at h; exact Except.noConfusion h
    | arr xs => rw [hp] at h; exact Except.noConfusion h
  | null => exact Except.noConfusion h
  | bool b => exact Except.noConfusion h
  | num n => exact Except.noConfusion h
  | str s => exact Except.noConfusion h
  | arr xs => exact Except.noConfusion h

/-- C4: the displayed timestamp column of every produced row is chosen by
first-available-of-three priority over the feature's properties — `ends`
first, then `expires`, then `effective` (a single value, never merged) —
and a feature with none of the three keys displays the placeholder. -/
theorem timestamp_priority :
    ∀ (iso : String → Option String) (f : Json) (r : AlertRecord),
      normFeature iso f = .ok r →
      (((f.getD "properties" (.obj [])).getD "ends" .null).truthy = true →
          r.col5 = dispOf iso ((f.getD "properties" (.obj [])).getD "ends" .null))
      ∧ (((f.getD "properties" (.obj [])).getD "ends" .null).truthy = false →
          ((f.getD "properties" (.obj [])).getD "expires" .null).truthy = true →
          r.col5 = dispOf iso ((f.getD "properties" (.obj [])).getD "expires" .null))
      ∧ (((f.getD "properties" (.obj [])).getD "ends" .null).truthy = false →
          ((f.getD "properties" (.obj [])).getD "expires" .null).truthy = false →
          r.col5 = dispOf iso ((f.getD "properties" (.obj [])).getD "effective" .null))
      ∧ ((f.getD "properties" (.obj [])).get? "ends" = none →
          (f.getD "properties" (.obj [])).get? "expires" = none →
          (f.getD "properties" (.obj [])).get? "effective" = none →
          r.col5 = "—") := by
  intro iso f r h
  have hcol := normFeature_col5 iso f r h
  refine ⟨?_, ?_, ?_, ?_⟩
  · intro h1
    rw [hcol]
    unfold tsDisplay endsChain
    simp [h1]
  · intro h1 h2
    rw [hcol]
    unfold tsDisplay endsChain
    simp [h1, h2]
  · intro h1 h2
    rw [hcol]
    unfold tsDisplay endsChain
    simp [h1, h2]
  · intro h1 h2 h3
    rw [hcol]
    unfold tsDisplay endsChain
    simp only [Json.getD] at h1 h2 h3 ⊢
    rw [h1, h2, h3]
    rfl

/-- A feature carrying only an `expires` timestamp. -/
def exampleFeature : Json :=
  Json.obj [("properties", Json.obj [("expires", Json.str "2030-01-01T00:00:00Z")])]

/-- The row produced from `exampleFeature` under `isoNone`. -/
def exampleRecord : AlertRecord :=
  { event := "—", severity := "—", urgency := "—", certainty := "—",
    col5 := "2030-01-01T00:00:00Z", col6 := "", url := none }

/-- C4 witness: a feature with only `expires` displays that value. -/
theorem timestamp_priority_w :
    normFeature isoNone exampleFeature = .ok exampleRecord ∧
      exampleRecord.col5 = dispOf isoNone (Json.str "2030-01-01T00:00:00Z") :=
  ⟨rfl, (timestamp_priority isoNone exampleFeature exampleRecord rfl).2.1 rfl rfl⟩

/-- C3 counterexample: an input object whose `features` field is a truthy
non-array (the number 5) makes `populate_alerts` raise a `TypeError`
instead of yielding an empty record sequence. -/
theorem populate_nonarray_features_raises :
    populate_alerts isoNone (Json.obj [("features", Json.num 5)]) =
      ([], some (notIterMsg "int")) := rfl

/-- C3 (amended): an input object whose `features` field is absent, an
empty array, or any false-like value normalizes to the empty record
sequence without raising; a truthy non-array `features` value raises. -/
theorem populate_falsy_features_empty :
    ∀ (iso : String → Option String) (fs : List (String × Json)),
      ((Json.obj fs).get? "features" = none ∨
        ∃ j, (Json.obj fs).get? "features" = some j ∧ j.truthy = false) →
      populate_alerts iso (Json.obj fs) = ([], none) := by
  intro iso fs h
  unfold populate_alerts
  rcases h with h | ⟨j, hj, ht⟩
  · simp [Json.getD, h, Json.truthy, addRows]
  · simp [Json.getD, hj, ht, addRows]

/-- C3 witness (amended claim): a JSON-null `features` field yields zero
records and no error. -/
theorem populate_falsy_features_empty_w :
    populate_alerts isoNone (Json.obj [("features", Json.null)]) = ([], none) :=
  populate_falsy_features_empty isoNone [("features", Json.null)]
    (Or.inr ⟨Json.null, rfl, rfl⟩)

/-- Whether a feature is turned into a row does not depend on the datetime
pipeline: timestamp parsing can only change the displayed text. -/
theorem normFeature_isOk_eq (iso₁ iso₂ : String → Option String) (f : Json) :
    isOkE (normFeature iso₁ f) = isOkE (normFeature iso₂ f) := by
  unfold normFeature
  cases f with
  | obj fs =>
    cases hp : (Json.obj fs).getD "properties" (.obj []) with
    | obj pf =>
      show isOkE (normFromProps iso₁ (Json.obj fs) (Json.obj pf)) =
        isOkE (normFromProps iso₂ (Json.obj fs) (Json.obj pf))
      unfold normFromProps
      split
      · rfl
      · rfl
    | null => rfl
    | bool b => rfl
    | num n => rfl
    | str s => rfl
    | arr xs => rfl
  | null => rfl
  | bool b => rfl
  | num n => rfl
  | str s => rfl
  | arr xs => rfl

/-- C7: a non-empty timestamp whose ISO-8601 parse raises is formatted as
the original raw string unchanged, and the fate of a feature (row produced
or not) never depends on the datetime pipeline — a parse failure never
drops the record. -/
theorem fmt_time_fallback :
    (∀ (iso : String → Option String) (t : String), t ≠ "" →
        iso (t.replace "Z" "+00:00") = none →
        fmt_time iso (Json.str t) = Json.str t)
    ∧ (∀ (iso₁ iso₂ : String → Option String) (f : Json),
        isOkE (normFeature iso₁ f) = isOkE (normFeature iso₂ f)) := by
  refine ⟨?_, normFeature_isOk_eq⟩
  intro iso t ht hparse
  have htr : (Json.str t).truthy = true := by
    simp [Json.truthy, ht]
  unfold fmt_time
  rw [htr]
  simp [hparse]

/-- C7 witness: an unparsable non-empty timestamp is passed through as is. -/
theorem fmt_time_fallback_w :
    fmt_time isoNone (Json.str "not-a-timestamp") = Json.str "not-a-timestamp" :=
  fmt_time_fallback.1 isoNone "not-a-timestamp" (by decide) rfl

/-- The primary stage always issues exactly one request, appended to the
auxiliary ones. -/
theorem primaryFetch_snd (iso : String → Option String) (net : String → HttpResult)
    (st : GuiState) (url : String) (reqs : List String) :
    (primaryFetch iso net st url reqs).2 = reqs ++ [url] := by
  unfold primaryFetch
  split
  · rfl
  · split
    · rfl
    · split
      · rfl
      · split
        · rfl
        · split
          · split
            · rfl
            · rfl
          · rfl

/-- The rows and the status line produced by the primary stage depend only
on the oracle, the URL, and the previous rows — not on the other state
fields or the request accumulator. -/
theorem primaryFetch_agree (iso : String → Option String) (net : String → HttpResult)
    (st₁ st₂ : GuiState) (url : String) (reqs₁ reqs₂ : List String)
    (hrows : st₁.alerts_rows = st₂.alerts_rows) :
    (primaryFetch iso net st₁ url reqs₁).1.alerts_rows =
        (primaryFetch iso net st₂ url reqs₂).1.alerts_rows
      ∧ (primaryFetch iso net st₁ url reqs₁).1.alerts_status =
        (primaryFetch iso net st₂ url reqs₂).1.alerts_status := by
  unfold primaryFetch
  split
  · exact ⟨hrows, rfl⟩
  · split
    · exact ⟨hrows, rfl⟩
    · split
      · exact ⟨hrows, rfl⟩
      · split
        · exact ⟨rfl, rfl⟩
        · split
          · split
            · exact ⟨rfl, rfl⟩
            · exact ⟨rfl, rfl⟩
          · exact ⟨rfl, rfl⟩

/-- Point mode resolves directly to the point-keyed URL with no auxiliary
request. -/
theorem resolve_point (net : String → HttpResult) (st : GuiState)
    (h : st.alerts_mode = "point") :
    resolve_url net st = (.ok (pointURL st), []) := by
  unfold resolve_url
  rw [h, if_pos rfl]

/-- State mode resolves directly to the area-keyed URL with no auxiliary
request. -/
theorem resolve_state (net : String → HttpResult) (st : GuiState)
    (h : st.alerts_mode = "state") :
    resolve_url net st = (.ok (areaURL st), []) := by
  unfold resolve_url
  rw [h, if_neg (by decide), if_pos rfl]

/-- Any unrecognized mode resolves to the bare active-alerts URL with no
auxiliary request. -/
theorem resolve_other (net : String → HttpResult) (st : GuiState)
    (h1 : st.alerts_mode ≠ "point") (h2 : st.alerts_mode ≠ "state")
    (h3 : st.alerts_mode ≠ "zone") :
    resolve_url net st = (.ok (NWS_API ++ "/alerts/active"), []) := by
  unfold resolve_url
  rw [if_neg h1, if_neg h2, if_neg h3]

/-- Zone mode always issues exactly the auxiliary point lookup during
resolution, whatever the oracle answers. -/
theorem resolve_zone_reqs (net : String → HttpResult) (st : GuiState)
    (h : st.alerts_mode = "zone") :
    (resolve_url net st).2 = [pointsURL st] := by
  unfold resolve_url
  rw [h]
  rw [if_neg (by decide), if_neg (by decide), if_pos rfl]
  dsimp only
  repeat' first | rfl | split

/-- Zone mode with a successful auxiliary response that carries no county
field under `properties` resolves to the point-mode URL. -/
theorem resolve_zone_fallback (net : String → HttpResult) (st : GuiState)
    (status : Nat) (reason : String) (pf pf2 : List (String × Json))
    (hmode : st.alerts_mode = "zone")
    (hnet : net (pointsURL st) = .resp status reason (.ok (Json.obj pf)))
    (hstatus : status < 400)
    (hp : (Json.obj pf).getD "properties" (.obj []) = Json.obj pf2)
    (hcounty : (Json.obj pf2).get? "county" = none) :
    resolve_url net st = (.ok (pointURL st), [pointsURL st]) := by
  have hrs : raiseForStatus status reason (pointsURL st) = none := by
    unfold raiseForStatus
    rw [if_neg]
    omega
  unfold resolve_url
  rw [hmode]
  rw [if_neg (by decide), if_neg (by decide), if_pos rfl]
  simp only [hnet, hrs, hp, hcounty]

/-- Success path of the primary stage: a 2xx/3xx JSON response whose
normalization raises nothing replaces the rows and reports the feature
count and source URL in the status line. -/
theorem primaryFetch_success (iso : String → Option String) (net : String → HttpResult)
    (st : GuiState) (url : String) (reqs : List String)
    (status : Nat) (reason : String) (data : Json) (rows : List AlertRecord) (n : Nat)
    (hm : net url = .resp status reason (.ok data)) (hlt : status < 400)
    (hpop : populate_alerts iso data = (rows, none))
    (hlen : pyLen (data.getD "features" (.arr [])) = some n) :
    primaryFetch iso net st url reqs =
      ({st with
          alerts_rows := rows
          alerts_status := "NWS alerts: " ++ toString n ++ " (source: " ++ url ++ ")"},
       reqs ++ [url]) := by
  have hrs : raiseForStatus status reason url = none := by
    unfold raiseForStatus
    rw [if_neg]
    omega
  unfold primaryFetch
  rw [hm]
  cases data with
  | obj fs => simp only [hrs, hpop, hlen]
  | null => simp [populate_alerts] at hpop
  | bool b => simp [populate_alerts] at hpop
  | num m => simp [populate_alerts] at hpop
  | str s => simp [populate_alerts] at hpop
  | arr xs => simp [populate_alerts] at hpop

/-- Zone mode whose auxiliary lookup raises a request exception resolves
to that exception after the single auxiliary request. -/
theorem resolve_zone_exn (net : String → HttpResult) (st : GuiState) (m : String)
    (hz : st.alerts_mode = "zone") (hm : net (pointsURL st) = .exn m) :
    resolve_url net st = (.error m, [pointsURL st]) := by
  unfold resolve_url
  rw [hz]
  rw [if_neg (by decide), if_neg (by decide), if_pos rfl]
  simp only [hm]

/-- Zone mode whose auxiliary lookup answers with a 4xx/5xx status
resolves to the `raise_for_status` error after the single auxiliary
request. -/
theorem resolve_zone_status (net : String → HttpResult) (st : GuiState)
    (status : Nat) (reason : String) (body : Except String Json)
    (hz : st.alerts_mode = "zone") (hm : net (pointsURL st) = .resp status reason body)
    (h4 : 400 ≤ status) (h6 : status < 600) :
    resolve_url net st =
      (.error (httpErrMsg status reason (pointsURL st)), [pointsURL st]) := by
  have hrs : raiseForStatus status reason (pointsURL st) =
      some (httpErrMsg status reason (pointsURL st)) := by
    unfold raiseForStatus
    rw [if_pos ⟨h4, h6⟩]
  unfold resolve_url
  rw [hz]
  rw [if_neg (by decide), if_neg (by decide), if_pos rfl]
  simp only [hm, hrs]

/-- Zone mode whose auxiliary lookup succeeds but has a non-JSON body
resolves to the decode error after the single auxiliary request. -/
theorem resolve_zone_badjson (net : String → HttpResult) (st : GuiState)
    (status : Nat) (reason m : String)
    (hz : st.alerts_mode = "zone") (hm : net (pointsURL st) = .resp status reason (.error m))
    (hlt : status < 400) :
    resolve_url net st = (.error m, [pointsURL st]) := by
  have hrs : raiseForStatus status reason (pointsURL st) = none := by
    unfold raiseForStatus
    rw [if_neg]
    omega
  unfold resolve_url
  rw [hz]
  rw [if_neg (by decide), if_neg (by decide), if_pos rfl]
  simp only [hm, hrs]

/-- C5: whenever a fetch fails with one of the three error conditions —
request exception, 4xx/5xx status, or non-JSON body — whether on the
primary request or on the zone-mode auxiliary lookup, the failure is
surfaced as a status line of the form `Alerts error: <message>` and
nothing else changes (rows and settings untouched); on success the status
line reports the record count and the source URL. -/
theorem fetch_error_surfacing :
    ∀ (iso : String → Option String) (net : String → HttpResult) (st : GuiState),
      (∀ (url : String) (reqs0 : List String),
        resolve_url net st = (.ok url, reqs0) →
        ((∀ m, net url = .exn m →
            fetch_alerts iso net st =
              ({st with alerts_status := "Alerts error: " ++ m}, reqs0 ++ [url]))
        ∧ (∀ status reason body, net url = .resp status reason body →
            400 ≤ status → status < 600 →
            fetch_alerts iso net st =
              ({st with alerts_status := "Alerts error: " ++ httpErrMsg status reason url},
               reqs0 ++ [url]))
        ∧ (∀ status reason m, net url = .resp status reason (.error m) → status < 400 →
            fetch_alerts iso net st =
              ({st with alerts_status := "Alerts error: " ++ m}, reqs0 ++ [url]))
        ∧ (∀ status reason data rows n, net url = .resp status reason (.ok data) →
            status < 400 → populate_alerts iso data = (rows, none) →
            pyLen (data.getD "features" (.arr [])) = some n →
            fetch_alerts iso net st =
              ({st with
                  alerts_rows := rows
                  alerts_status := "NWS alerts: " ++ toString n ++ " (source: " ++ url ++ ")"},
               reqs0 ++ [url]))))
      ∧ (st.alerts_mode = "zone" →
        ((∀ m, net (pointsURL st) = .exn m →
            fetch_alerts iso net st =
              ({st with alerts_status := "Alerts error: " ++ m}, [pointsURL st]))
        ∧ (∀ status reason body, net (pointsURL st) = .resp status reason body →
            400 ≤ status → status < 600 →
            fetch_alerts iso net st =
              ({st with
                  alerts_status := "Alerts error: " ++ httpErrMsg status reason (pointsURL st)},
               [pointsURL st]))
        ∧ (∀ status reason m, net (pointsURL st) = .resp status reason (.error m) →
            status < 400 →
            fetch_alerts iso net st =
              ({st with alerts_status := "Alerts error: " ++ m}, [pointsURL st])))) := by
  intro iso net st
  constructor
  · intro url reqs0 hres
    have hfetch : fetch_alerts iso net st = primaryFetch iso net st url reqs0 := by
      unfold fetch_alerts
      rw [hres]
    refine ⟨?_, ?_, ?_, ?_⟩
    · intro m hm
      rw [hfetch]
      unfold primaryFetch
      rw [hm]
    · intro status reason body hm h4 h6
      rw [hfetch]
      unfold primaryFetch
      have hrs : raiseForStatus status reason url = some (httpErrMsg status reason url) := by
        unfold raiseForStatus
        rw [if_pos ⟨h4, h6⟩]
      simp only [hm, hrs]
    · intro status reason m hm hlt
      rw [hfetch]
      unfold primaryFetch
      have hrs : raiseForStatus status reason url = none := by
        unfold raiseForStatus
        rw [if_neg]
        omega
      simp only [hm, hrs]
    · intro status reason data rows n hm hlt hpop hlen
      rw [hfetch]
      exact primaryFetch_success iso net st url reqs0 status reason data rows n hm hlt hpop hlen
  · intro hz
    refine ⟨?_, ?_, ?_⟩
    · intro m hm
      unfold fetch_alerts
      rw [resolve_zone_exn net st m hz hm]
    · intro status reason body hm h4 h6
      unfold fetch_alerts
      rw [resolve_zone_status net st status reason body hz hm h4 h6]
    · intro status reason m hm hlt
      unfold fetch_alerts
      rw [resolve_zone_badjson net st status reason m hz hm hlt]

/-- A network oracle that always raises (connection timeout). -/
def netDown : String → HttpResult := fun _ => .exn "timed out"

/-- A state whose alert mode is `zone`. -/
def zoneModeState : GuiState := {exampleState with alerts_mode := "zone"}

/-- C5 witness: a timed-out point-mode fetch only rewrites the status
line after the single primary request, and a timed-out zone-mode
auxiliary lookup does the same after the single auxiliary request. -/
theorem fetch_error_surfacing_w :
    (fetch_alerts isoNone netDown exampleState =
      ({exampleState with alerts_status := "Alerts error: timed out"},
       ["https://api.weather.gov/alerts/active?point=49.7847,-94.9921"]))
    ∧ (fetch_alerts isoNone netDown zoneModeState =
      ({zoneModeState with alerts_status := "Alerts error: timed out"},
       ["https://api.weather.gov/points/49.7847,-94.9921"])) :=
  ⟨((fetch_error_surfacing isoNone netDown exampleState).1 (pointURL exampleState) []
      (resolve_point netDown exampleState rfl)).1 "timed out" rfl,
   ((fetch_error_surfacing isoNone netDown zoneModeState).2 rfl).1 "timed out" rfl⟩

/-- C9: in state mode exactly one request is issued, to the area-keyed
active-alerts URL with the area code inserted verbatim, and no auxiliary
point lookup is made. -/
theorem state_mode_single_request :
    ∀ (iso : String → Option String) (net : String → HttpResult) (st : GuiState),
      st.alerts_mode = "state" →
      (fetch_alerts iso net st).2 = [NWS_API ++ "/alerts/active?area=" ++ st.alerts_area] := by
  intro iso net st h
  unfold fetch_alerts
  rw [resolve_state net st h]
  show (primaryFetch iso net st (areaURL st) []).2 = _
  rw [primaryFetch_snd]
  rfl

/-- A state whose alert mode is `state` with area code FL. -/
def stateModeState : GuiState := {exampleState with alerts_mode := "state"}

/-- C9 witness: state mode with code FL issues exactly the area=FL query. -/
theorem state_mode_single_request_w :
    (fetch_alerts isoNone netDown stateModeState).2 =
      ["https://api.weather.gov/alerts/active?area=FL"] :=
  state_mode_single_request isoNone netDown stateModeState rfl

/-- C10: any unrecognized alert mode does not fail: the nationwide
active-alerts URL with no query parameter is requested, and a successful
response is displayed as usual. -/
theorem unknown_mode_nationwide :
    ∀ (iso : String → Option String) (net : String → HttpResult) (st : GuiState),
      st.alerts_mode ≠ "point" → st.alerts_mode ≠ "state" → st.alerts_mode ≠ "zone" →
      ((fetch_alerts iso net st).2 = [NWS_API ++ "/alerts/active"]
      ∧ ∀ status reason data rows n,
          net (NWS_API ++ "/alerts/active") = .resp status reason (.ok data) →
          status < 400 → populate_alerts iso data = (rows, none) →
          pyLen (data.getD "features" (.arr [])) = some n →
          (fetch_alerts iso net st).1 =
            {st with
              alerts_rows := rows
              alerts_status :=
                "NWS alerts: " ++ toString n ++ " (source: " ++ (NWS_API ++ "/alerts/active") ++ ")"}) := by
  intro iso net st h1 h2 h3
  have hres := resolve_other net st h1 h2 h3
  have hfetch : fetch_alerts iso net st = primaryFetch iso net st (NWS_API ++ "/alerts/active") [] := by
    unfold fetch_alerts
    rw [hres]
  constructor
  · rw [hfetch, primaryFetch_snd]
    rfl
  · intro status reason data rows n hm hlt hpop hlen
    rw [hfetch,
      primaryFetch_success iso net st (NWS_API ++ "/alerts/active") [] status reason data rows n
        hm hlt hpop hlen]

/-- A state whose alert mode is an unrecognized word. -/
def otherModeState : GuiState := {exampleState with alerts_mode := "nationwide"}

/-- A network oracle answering every request with an empty feature set. -/
def netOK : String → HttpResult :=
  fun _ => .resp 200 "OK" (.ok (Json.obj [("features", Json.arr [])]))

/-- C10 witness: an unrecognized mode requests the bare active-alerts URL
and displays the (empty) result. -/
theorem unknown_mode_nationwide_w :
    (fetch_alerts isoNone netOK otherModeState).2 = ["https://api.weather.gov/alerts/active"]
    ∧ (fetch_alerts isoNone netOK otherModeState).1 =
        {otherModeState with
          alerts_rows := []
          alerts_status := "NWS alerts: 0 (source: https://api.weather.gov/alerts/active)"} :=
  ⟨(unknown_mode_nationwide isoNone netOK otherModeState (by decide) (by decide) (by decide)).1,
   (unknown_mode_nationwide isoNone netOK otherModeState (by decide) (by decide) (by decide)).2
     200 "OK" (Json.obj [("features", Json.arr [])]) [] 0 rfl (by decide) rfl rfl⟩

/-- The request trace of a fetch is the auxiliary requests of resolution
followed by the primary request when resolution succeeded. -/
theorem fetch_alerts_snd (iso : String → Option String) (net : String → HttpResult)
    (st : GuiState) :
    (fetch_alerts iso net st).2 =
      (resolve_url net st).2 ++
        (match (resolve_url net st).1 with
         | .error _ => []
         | .ok url => [url]) := by
  unfold fetch_alerts
  cases hres : resolve_url net st with
  | mk e reqs =>
    cases e with
    | error m => simp
    | ok url => simp [primaryFetch_snd]

/-- C2: a zone-mode fetch always issues the auxiliary point lookup for the
snapshot's own 4-decimal coordinates first; when that lookup succeeds but
carries no county field under `properties`, the primary request issued is
exactly the point-mode query for the same coordinates and the resulting
rows and status line equal the point-mode result — a fallback, not an
error. -/
theorem zone_mode_aux_lookup_and_fallback :
    ∀ (iso : String → Option String) (net : String → HttpResult) (st : GuiState),
      st.alerts_mode = "zone" →
      ((fetch_alerts iso net st).2.head? = some (pointsURL st)
      ∧ ∀ status reason pf pf2,
          net (pointsURL st) = .resp status reason (.ok (Json.obj pf)) →
          status < 400 →
          (Json.obj pf).getD "properties" (.obj []) = Json.obj pf2 →
          (Json.obj pf2).get? "county" = none →
          ((fetch_alerts iso net st).2 = [pointsURL st, pointURL st]
          ∧ (fetch_alerts iso net st).1.alerts_rows =
              (fetch_alerts iso net {st with alerts_mode := "point"}).1.alerts_rows
          ∧ (fetch_alerts iso net st).1.alerts_status =
              (fetch_alerts iso net {st with alerts_mode := "point"}).1.alerts_status)) := by
  intro iso net st h
  constructor
  · rw [fetch_alerts_snd, resolve_zone_reqs net st h]
    cases (resolve_url net st).1 with
    | error m => rfl
    | ok url => rfl
  · intro status reason pf pf2 hnet hlt hp hc
    have hres := resolve_zone_fallback net st status reason pf pf2 h hnet hlt hp hc
    have hres2 := resolve_point net {st with alerts_mode := "point"} rfl
    have hfetchZ : fetch_alerts iso net st =
        primaryFetch iso net st (pointURL st) [pointsURL st] := by
      unfold fetch_alerts
      rw [hres]
    have hfetchP : fetch_alerts iso net {st with alerts_mode := "point"} =
        primaryFetch iso net {st with alerts_mode := "point"}
          (pointURL {st with alerts_mode := "point"}) [] := by
      unfold fetch_alerts
      rw [hres2]
    refine ⟨?_, ?_, ?_⟩
    · rw [hfetchZ, primaryFetch_snd]
      rfl
    · rw [hfetchZ, hfetchP]
      exact (primaryFetch_agree iso net st {st with alerts_mode := "point"}
        (pointURL st) [pointsURL st] [] rfl).1
    · rw [hfetchZ, hfetchP]
      exact (primaryFetch_agree iso net st {st with alerts_mode := "point"}
        (pointURL st) [pointsURL st] [] rfl).2

/-- A network oracle whose point-metadata answer has no county and whose
alerts answer is an empty feature set. -/
def netNoCounty : String → HttpResult :=
  fun u =>
    if u = "https://api.weather.gov/points/49.7847,-94.9921" then
      .resp 200 "OK" (.ok (Json.obj []))
    else
      .resp 200 "OK" (.ok (Json.obj [("features", Json.arr [])]))

/-- C2 witness: a zone-mode fetch whose lookup yields no county issues the
point lookup then the point query and matches the point-mode result. -/
theorem zone_mode_aux_lookup_and_fallback_w :
    (fetch_alerts isoNone netNoCounty zoneModeState).2.head? = some (pointsURL zoneModeState)
    ∧ (fetch_alerts isoNone netNoCounty zoneModeState).2 =
        [pointsURL zoneModeState, pointURL zoneModeState]
    ∧ (fetch_alerts isoNone netNoCounty zoneModeState).1.alerts_status =
        (fetch_alerts isoNone netNoCounty {zoneModeState with alerts_mode := "point"}).1.alerts_status :=
  ⟨(zone_mode_aux_lookup_and_fallback isoNone netNoCounty zoneModeState rfl).1,
   ((zone_mode_aux_lookup_and_fallback isoNone netNoCounty zoneModeState rfl).2
     200 "OK" [] [] rfl (by decide) rfl rfl).1,
   ((zone_mode_aux_lookup_and_fallback isoNone netNoCounty zoneModeState rfl).2
     200 "OK" [] [] rfl (by decide) rfl rfl).2.2⟩
